import Mathlib

/-!
Verification development for the FoundationDB Data Distributor supervisor
(`fdbserver/DataDistribution.actor.cpp`).

The C++ source is shallowly embedded: actors become pure functions with
explicit state threading; sends onto promise streams, durable writes and
map updates are collected into event lists; C++ `ASSERT` failures and
out-of-bounds vector accesses surface as `Except.error`; `size_t`
arithmetic is modelled with an explicit wrap at `2 ^ 64` where the source
can underflow.  Keys are naturals (the source only compares keys) and
times are integers.

Declarations whose definitions live in headers outside this repository
(`RelocateShard` construction defaults, the movement-reason priorities,
`StorageMetadataType` ordering, `ddLargeTeamEnabled`, `anonymousShardId`,
`DDEnabledState`) are modelled from the specification and from the unit
tests contained in the source file, and carry a `Modelled from the spec:`
note in their doc comments.  Everything else is translated directly from
the source.
-/

namespace DDModel

/-- Keys are modelled as naturals; the source only compares keys. -/
abbrev Key := Nat

/-- A contiguous key range. -/
structure KeyRange where
  first : Key
  last : Key
  deriving DecidableEq, Repr

/-- Source `KeyRangeRef::contains(KeyRangeRef)`:
`begin <= r.begin && r.end <= end`. -/
def KeyRange.containsRange (a b : KeyRange) : Bool :=
  decide (a.first ≤ b.first) && decide (b.last ≤ a.last)

/-- A `UID` is a pair of 64-bit words; the model only needs equality and
ordering. -/
abbrev UID := Nat × Nat

/-- Modelled from the spec: the reserved `anonymous` shard / data-move id
(`anonymousShardId`, declared outside this repository); the source only
compares ids for equality, so any fixed value serves. -/
def anonymousShardId : UID := (0, 0)

/-- Error codes crossing the supervisor boundary (declared outside this
repository and referenced by name in the source; the model only
distinguishes codes).  In flow, `actor_cancelled` carries the same code as
`operation_cancelled`, so a single constructor represents both. -/
inductive DDError where
  | operationCancelled
  | movekeysConflict
  | notImplemented
  | retryError
  | auditStorageExceededRequestLimit
  | auditStorageFailed
  | auditStorageError
  | duplicateSnapshotRequest
  | snapStorageFailed
  | snapTlogFailed
  | snapDisableTlogPopFailed
  | snapEnableTlogPopFailed
  | snapCoordFailed
  | snapWithRecoveryUnsupported
  | operationFailed
  | timedOut
  | brokenPromise
  | internalError
  deriving DecidableEq, Repr

/-- Values of `DataMovementReason` used by the resume paths. -/
inductive DataMovementReason where
  | RECOVER_MOVE
  | TEAM_UNHEALTHY
  | SPLIT_SHARD
  deriving DecidableEq, Repr

/-- Modelled from the spec: the knob priority assigned to each movement
reason by `dataMovementPriority` (defined outside this repository); the
source unit test asserts that a `RECOVER_MOVE` relocation has
`priority == SERVER_KNOBS->PRIORITY_RECOVER_MOVE`.  Values are the default
knob values. -/
def dataMovementPriority : DataMovementReason → Nat
  | .RECOVER_MOVE => 110
  | .TEAM_UNHEALTHY => 700
  | .SPLIT_SHARD => 950

/-- Default knob value of `PRIORITY_RECOVER_MOVE`. -/
def PRIORITY_RECOVER_MOVE : Nat := 110

/-- Source `ShardsAffectedByTeamFailure::Team`: an ordered server list plus
a primary-region flag. -/
structure Team where
  servers : List UID
  primary : Bool
  deriving DecidableEq, Repr

/-- Durable metadata of an in-flight data move (`DataMoveMetaData`). -/
structure DataMoveMetaData where
  id : UID
  ranges : List KeyRange
  deriving DecidableEq, Repr

/-- Runtime `DataMove`: metadata plus destinations and status flags. -/
structure DataMove where
  meta : DataMoveMetaData
  primaryDest : List UID
  remoteDest : List UID
  valid : Bool
  cancelled : Bool
  deriving DecidableEq, Repr

/-- Source `DataMove::isCancelled`. -/
def DataMove.isCancelled (dm : DataMove) : Bool := dm.cancelled

/-- Work item `RelocateShard`.  Modelled from the spec: the constructor
`RelocateShard(keys, reason, RelocateReason::OTHER)` (declared outside this
repository) initialises `dataMoveId = anonymousShardId`, `cancelled = false`
and a null `dataMove`; the unit test in the source file asserts exactly
these defaults. -/
structure RelocateShard where
  keys : KeyRange
  reason : DataMovementReason
  dataMoveId : UID := anonymousShardId
  cancelled : Bool := false
  dataMove : Option DataMove := none
  deriving DecidableEq, Repr

/-- Source `RelocateShard::isRestore()`: true iff a restored `DataMove` is
attached. -/
def RelocateShard.isRestore (rs : RelocateShard) : Bool := rs.dataMove.isSome

/-- Priority of a `RelocateShard`, derived from its movement reason. -/
def RelocateShard.priority (rs : RelocateShard) : Nat := dataMovementPriority rs.reason

/-- One entry of the initial shard snapshot (`DDShardInfo`). -/
structure DDShardInfo where
  key : Key
  primarySrc : List UID := []
  remoteSrc : List UID := []
  primaryDest : List UID := []
  remoteDest : List UID := []
  srcId : UID := anonymousShardId
  destId : UID := anonymousShardId
  hasDest : Bool := false
  deriving DecidableEq, Repr

/-- The slice of `DatabaseConfiguration` read by the resume paths. -/
structure DatabaseConfiguration where
  usableRegions : Nat
  storageTeamSize : Nat
  deriving DecidableEq, Repr

/-- Knobs read by the modelled code paths.  `largeTeamsEnabled` is modelled
from the spec: `ddLargeTeamEnabled()` is defined outside this repository
(spec: "large-teams-enabled"). -/
structure Knobs where
  largeTeamsEnabled : Bool
  DD_MAX_SHARDS_ON_LARGE_TEAMS : Nat
  SHARD_ENCODE_LOCATION_METADATA : Bool
  AUDIT_RETRY_COUNT_MAX : Nat
  deriving DecidableEq, Repr


/-! ## StorageWiggler (the WiggleEngine)

Model of `StorageWiggler::addServer` / `getNextServerId` / `necessary`.
The priority queue `wiggle_pq` is represented by the list of its elements;
`findTop` computes `wiggle_pq.top()` (the minimum under the pair order) and
popping is `List.erase`. -/

/-- Storage-server metadata `StorageMetadataType`: creation time, store kind
and configuration flag.  Times are modelled as integers. -/
structure StorageMetadataType where
  createdTime : Int
  storeType : Nat := 0
  wrongConfigured : Bool := false
  deriving DecidableEq, Repr

/-- Modelled from the spec: ordering of `StorageMetadataType` (declared
outside this repository): `wrong_configured=true` sorts before
`wrong_configured=false`; within the same flag, older `created_time` sorts
first.  The source unit test `/DataDistribution/StorageWiggler/Order` pins
this order. -/
def smtLt (a b : StorageMetadataType) : Bool :=
  (a.wrongConfigured && !b.wrongConfigured) ||
    (a.wrongConfigured == b.wrongConfigured && decide (a.createdTime < b.createdTime))

/-- Strict order on `UID` (64-bit pair comparison). -/
def uidLt (a b : UID) : Bool :=
  decide (a.1 < b.1) || (decide (a.1 = b.1) && decide (a.2 < b.2))

/-- One wiggle-queue element, a pair of metadata and server id. -/
abbrev WiggleEntry := StorageMetadataType × UID

/-- Lexicographic pair comparison used by the wiggle priority queue
(metadata first, then id). -/
def wiggleEntryLt (a b : WiggleEntry) : Bool :=
  smtLt a.1 b.1 || (!smtLt b.1 a.1 && uidLt a.2 b.2)

/-- The minimum of the queue, i.e. `wiggle_pq.top()` of the min-heap. -/
def findTop : List WiggleEntry → Option WiggleEntry
  | [] => none
  | e :: es => some (es.foldl (fun acc x => if wiggleEntryLt x acc then x else acc) e)

/-- Source `StorageWiggler::necessary`: wrongly configured, or older than
the minimum-age knob `DD_STORAGE_WIGGLE_MIN_SS_AGE_SEC`. -/
def necessary (nowT minAge : Int) (m : StorageMetadataType) : Bool :=
  m.wrongConfigured || decide (nowT - m.createdTime > minAge)

/-- Source `StorageWiggler::getNextServerId(necessaryOnly)`: an empty queue
gives none; a `necessaryOnly` call whose minimum is not necessary gives
none without popping; otherwise the minimum is popped and its id
returned. -/
def getNextServerId (nowT minAge : Int) (necessaryOnly : Bool) (q : List WiggleEntry) :
    Option UID × List WiggleEntry :=
  match findTop q with
  | none => (none, q)
  | some e =>
    if necessaryOnly && !necessary nowT minAge e.1 then (none, q)
    else (some e.2, q.erase e)

/-- Source `StorageWiggler::addServer`: asserts the server is not yet
present, then inserts. -/
def addServer (q : List WiggleEntry) (serverId : UID) (metadata : StorageMetadataType) :
    Except String (List WiggleEntry) :=
  if q.any (fun e => e.2 = serverId) then .error "ASSERT failed: pq_handles.count(serverId)"
  else .ok (q ++ [(metadata, serverId)])

/-- Entries popped by draining the queue with `findTop` and erase, in
order. -/
def popAllFuel : Nat → List WiggleEntry → List WiggleEntry
  | 0, _ => []
  | fuel + 1, q =>
    match findTop q with
    | none => []
    | some e => e :: popAllFuel fuel (q.erase e)

/-- The full entry sequence produced by draining the queue. -/
def popAll (q : List WiggleEntry) : List WiggleEntry := popAllFuel q.length q

/-- Server ids returned by successive `getNextServerId(false)` calls. -/
def drainIds (nowT minAge : Int) : Nat → List WiggleEntry → List UID
  | 0, _ => []
  | fuel + 1, q =>
    match getNextServerId nowT minAge false q with
    | (none, _) => []
    | (some i, q2) => i :: drainIds nowT minAge fuel q2

/-- Ordering key claimed by the spec: ascending by
`(not wrong_configured, created_time)`. -/
def wiggleSpecLe (a b : WiggleEntry) : Prop :=
  (a.1.wrongConfigured = true ∧ b.1.wrongConfigured = false) ∨
    (a.1.wrongConfigured = b.1.wrongConfigured ∧ a.1.createdTime ≤ b.1.createdTime)

instance (a b : WiggleEntry) : Decidable (wiggleSpecLe a b) := by
  unfold wiggleSpecLe; infer_instance


/-! ## ResumeEngine Phase A (`DataDistributor::resumeFromShards`)

The per-range user configuration `userRangeConfig` (a `KeyRangeMap`) is
represented by its entries `(range begin, replication-factor override)` in
ascending key order; `customBoundaries` collects every entry begin, exactly
as the source pushes `range.begin` for every range.  The two `while` loops
over `customBoundary` are `skipBoundaries` and `splitRanges` on the
remaining boundary suffix.  The source loop bound
`shards.size() - 1` is unsigned: `resumeFromShards` computes it modulo
`2 ^ 64`, and indexing past the vector end surfaces as `Except.error`. -/

structure ResumeEnv where
  config : DatabaseConfiguration
  knobs : Knobs
  userRangeConfig : List (Key × Option Nat)
  deriving DecidableEq, Repr

def customBoundaries (env : ResumeEnv) : List Key := env.userRangeConfig.map (fun e => e.1)

def replicationFactorAt (cfgs : List (Key × Option Nat)) (k : Key) : Nat :=
  (cfgs.foldl (fun acc e => if e.1 ≤ k then e.2 else acc) none).getD 0

def skipBoundaries (beginKey : Key) : List Key → List Key
  | [] => []
  | b :: bs => if b ≤ beginKey then skipBoundaries beginKey bs else b :: bs

def splitRanges (endKey beginKey : Key) : List Key → List KeyRange × List Key
  | [] => ([⟨beginKey, endKey⟩], [])
  | b :: bs =>
    if b < endKey then
      let t := splitRanges endKey b bs
      (⟨beginKey, b⟩ :: t.1, t.2)
    else ([⟨beginKey, endKey⟩], b :: bs)

def computeUnhealthy (env : ResumeEnv) (iShard : DDShardInfo) (keys : KeyRange) (orc : Nat) :
    Bool × Nat :=
  let customReplicas :=
    max env.config.storageTeamSize (replicationFactorAt env.userRangeConfig keys.first)
  let u0 := decide (iShard.primarySrc.length ≠ customReplicas)
  let u1 := if !u0 && decide (env.config.usableRegions > 1) then
      decide (iShard.remoteSrc.length ≠ customReplicas)
    else u0
  if !u1 && decide (iShard.primarySrc.length > env.config.storageTeamSize) then
    (if decide (orc + 1 > env.knobs.DD_MAX_SHARDS_ON_LARGE_TEAMS) then true else u1, orc + 1)
  else (u1, orc)

def emitForSubrange (env : ResumeEnv) (iShard : DDShardInfo) (keys : KeyRange) (r : Nat)
    (unhealthy : Bool) : Option RelocateShard :=
  if (env.knobs.largeTeamsEnabled && (unhealthy || decide (r > 0))) ||
      (iShard.hasDest && decide (iShard.destId = anonymousShardId)) then
    some { keys := keys,
           reason := if unhealthy then .TEAM_UNHEALTHY
             else if r > 0 then .SPLIT_SHARD else .RECOVER_MOVE }
  else none

def processSubranges (env : ResumeEnv) (iShard : DDShardInfo) :
    List KeyRange → Nat → Nat → List RelocateShard × Nat
  | [], _, orc => ([], orc)
  | keys :: rest, r, orc =>
    let u := computeUnhealthy env iShard keys orc
    let emitted := emitForSubrange env iShard keys r u.1
    let tail := processSubranges env iShard rest (r + 1) u.2
    (emitted.toList ++ tail.1, tail.2)

def SIZE_T_MOD : Nat := 2 ^ 64

def shardLoop (env : ResumeEnv) (shards : List DDShardInfo) :
    Nat → Nat → List Key → Nat → Except String (List RelocateShard)
  | 0, _, _, _ => .ok []
  | rem + 1, shardIdx, cb, orc =>
    match shards[shardIdx]?, shards[shardIdx + 1]? with
    | some iShard, some nextShard =>
      let beginKey := iShard.key
      let endKey := nextShard.key
      let bs1 := skipBoundaries beginKey cb
      let ranges := splitRanges endKey beginKey bs1
      let step := processSubranges env iShard ranges.1 0 orc
      match shardLoop env shards rem (shardIdx + 1) ranges.2 step.2 with
      | .ok rest => .ok (step.1 ++ rest)
      | .error e => .error e
    | _, _ => .error "out-of-bounds vector access in resumeFromShards"

def resumeFromShards (env : ResumeEnv) (shards : List DDShardInfo) :
    Except String (List RelocateShard) :=
  shardLoop env shards ((shards.length + (SIZE_T_MOD - 1)) % SIZE_T_MOD) 0
    (customBoundaries env) 0

-- quick sanity checks

def testEnv (k : Knobs) : ResumeEnv :=
  { config := { usableRegions := 1, storageTeamSize := 1 },
    knobs := k,
    userRangeConfig := [(0, none)] }

def defaultKnobs : Knobs :=
  { largeTeamsEnabled := true, DD_MAX_SHARDS_ON_LARGE_TEAMS := 100,
    SHARD_ENCODE_LOCATION_METADATA := false, AUDIT_RETRY_COUNT_MAX := 6 }

def testShards (N P : Nat) : List DDShardInfo :=
  (List.range N).map (fun j =>
    { key := j + 1, primarySrc := [(j + 1, 0)],
      primaryDest := if j < P then [(j + 2, 0)] else [],
      hasDest := decide (j < P) }) ++ [{ key := N + 1 }]

def testRS (j : Nat) : RelocateShard :=
  { keys := ⟨j + 1, j + 2⟩, reason := .RECOVER_MOVE }


/-! ## ResumeEngine Phase B (`DataDistributor::resumeFromDataMoves`)

Each data-move map entry is processed by `dataMoveStep`, which receives the
remaining output; its effects are recorded as `DMEvent`s in program order
(`restartShardTracker.send`, `defineShard`, `moveShard`, relocation send).
The failed `ASSERT(meta.ranges.front() == it.range())` surfaces as
`Except.error`.  `resumeRelocations` runs Phase A and then Phase B, as the
source does through the `readyToStart` future. -/

inductive DMEvent where
  | restartTracker (r : KeyRange)
  | defineShard (r : KeyRange)
  | moveShard (r : KeyRange) (teams : List Team)
  | send (rs : RelocateShard)
  deriving DecidableEq, Repr

def restoreTeams (dm : DataMove) : List Team :=
  Team.mk dm.primaryDest true ::
    (if dm.remoteDest.isEmpty then [] else [Team.mk dm.remoteDest false])

def dataMoveStep (knobs : Knobs) (range : KeyRange) (dm : DataMove) :
    List KeyRange → Except String (List DMEvent) → Except String (List DMEvent)
  | [], tail => tail
  | front :: _, tail =>
    if dm.isCancelled || (dm.valid && !knobs.SHARD_ENCODE_LOCATION_METADATA) then
      tail.map (fun es =>
        .send { keys := front, reason := .RECOVER_MOVE, dataMoveId := dm.meta.id,
                cancelled := true } :: es)
    else if dm.valid then
      if front = range then
        let rs : RelocateShard :=
          { keys := front, reason := .RECOVER_MOVE, dataMoveId := dm.meta.id,
            dataMove := some dm }
        tail.map (fun es =>
          .restartTracker rs.keys :: .defineShard rs.keys ::
            .moveShard rs.keys (restoreTeams dm) :: .send rs :: es)
      else .error "ASSERT failed: meta.ranges.front() == it.range()"
    else tail

def resumeFromDataMoves (knobs : Knobs) :
    List (KeyRange × DataMove) → Except String (List DMEvent)
  | [] => .ok []
  | (range, dm) :: rest =>
    dataMoveStep knobs range dm dm.meta.ranges (resumeFromDataMoves knobs rest)

def resumeRelocations (env : ResumeEnv) (shards : List DDShardInfo) (knobs : Knobs)
    (entries : List (KeyRange × DataMove)) :
    Except String (List RelocateShard × List DMEvent) :=
  (resumeFromShards env shards).bind (fun a =>
    (resumeFromDataMoves knobs entries).map (fun b => (a, b)))


/-! ## AuditEngine (`launchAudit`, `auditStorageCore`)

The runtime audit map for one audit type is the list of its `DDAudit`s in
iteration order.  `auditStorageCore` is modelled per generation: the
completion path after `wait(audit->actors.getResult())` and the catch
handler `auditCoreCatch`; durable writes and map updates are recorded as
`AuditEvent`s.  `auditRetryGenerations` chains generations whose children
all failed retryably, following the rescheduling done by
`runAuditStorage`. -/

inductive AuditPhase where
  | Invalid
  | Running
  | Complete
  | Error
  | Failed
  deriving DecidableEq, Repr

structure AuditStorageState where
  id : UID
  range : KeyRange
  phase : AuditPhase
  deriving DecidableEq, Repr

structure DDAudit where
  coreState : AuditStorageState
  retryCount : Nat := 0
  foundError : Bool := false
  anyChildAuditFailed : Bool := false
  cancelled : Bool := false
  deriving DecidableEq, Repr

def launchPred (auditRange : KeyRange) (a : DDAudit) : Bool :=
  a.coreState.range.containsRange auditRange && decide (a.coreState.phase = AuditPhase.Running)

def launchAudit (audits : List DDAudit) (auditRange : KeyRange) (freshId : UID) :
    Except DDError UID :=
  if audits.isEmpty then .ok freshId
  else
    match audits.find? (launchPred auditRange) with
    | some a => .ok a.coreState.id
    | none => .error .auditStorageExceededRequestLimit

inductive AuditEvent where
  | setPhase (p : AuditPhase)
  | persist (p : AuditPhase) (ok : Bool)
  | clearChildFailedFlag
  | clearActors
  | removeFromMap
  | scheduleRetry (retryCount : Nat)
  deriving DecidableEq, Repr

inductive AuditGenOutcome where
  | done
  | thrown (e : DDError)
  deriving DecidableEq, Repr

structure AuditGenEnv where
  bodyError : Option DDError
  foundError : Bool
  anyChildAuditFailed : Bool
  persistResult : Option DDError
  persistFailedResult : Option DDError
  deriving DecidableEq, Repr

def auditCoreCatch (maxRetry retryCount : Nat) (persistFailedResult : Option DDError)
    (e : DDError) (evs : List AuditEvent) : List AuditEvent × AuditGenOutcome :=
  if e = .operationCancelled ∨ e = .movekeysConflict then (evs, .thrown e)
  else if retryCount < maxRetry ∧ e ≠ .notImplemented then
    (evs ++ [.clearActors, .removeFromMap, .scheduleRetry (retryCount + 1)], .done)
  else
    (evs ++ [.setPhase .Failed, .persist .Failed persistFailedResult.isNone, .removeFromMap],
      .done)

def auditStorageCore (maxRetry retryCount : Nat) (env : AuditGenEnv) :
    List AuditEvent × AuditGenOutcome :=
  match env.bodyError with
  | some e => auditCoreCatch maxRetry retryCount env.persistFailedResult e []
  | none =>
    if env.foundError then
      match env.persistResult with
      | none => ([.setPhase .Error, .persist .Error true, .removeFromMap], .done)
      | some pe =>
        auditCoreCatch maxRetry retryCount env.persistFailedResult pe
          [.setPhase .Error, .persist .Error false]
    else if env.anyChildAuditFailed then
      auditCoreCatch maxRetry retryCount env.persistFailedResult .retryError
        [.clearChildFailedFlag]
    else
      match env.persistResult with
      | none => ([.setPhase .Complete, .persist .Complete true, .removeFromMap], .done)
      | some pe =>
        auditCoreCatch maxRetry retryCount env.persistFailedResult pe
          [.setPhase .Complete, .persist .Complete false]

def childFailEnv : AuditGenEnv :=
  { bodyError := none, foundError := false, anyChildAuditFailed := true,
    persistResult := none, persistFailedResult := none }

def auditRetryGenerations (maxRetry : Nat) : Nat → Nat → List AuditEvent
  | 0, _ => []
  | fuel + 1, rc =>
    let g := auditStorageCore maxRetry rc childFailEnv
    if AuditEvent.scheduleRetry (rc + 1) ∈ g.1 then
      g.1 ++ auditRetryGenerations maxRetry fuel (rc + 1)
    else g.1

def haTestAudit : DDAudit :=
  { coreState := { id := (9, 9), range := ⟨0, 25⟩, phase := .Running } }


/-! ## Snapshot request dedup, `ddSnapCreateCore` recovery, and
`ddSnapCreate` DD re-enabling

`handleDistributorSnapRequest` is the `DistributorSnapRequest` branch of
the `dataDistributor` request loop; each request instance carries a `tag`
naming its reply promise, and `repliesOfAction` lists the replies an action
sends.  `completionReplyTag` is where `ddSnapCreate` will deliver the final
outcome (`ddSnapMap->at(uid).reply`).  `ddSnapCreateCore` is summarised by
which step of the orchestration fails (each step failing with its
transformed error, or with cancellation at any await) and whether the
catch handler re-attempts enable-pop; `snapRecoverySet` is the exact
error-code set tested by that handler.  The clear-flag transaction loop
retries internally, so its only escaping failure is cancellation.
`DDEnabledMode` with `trySetSnapshot` / `trySetEnabled` is modelled from
the spec (single-owner compare-and-set transitions; the class lives outside
this repository). -/

/-- Result type `ErrorOr<Void>` of a snapshot request. -/
abbrev ErrorOrUnit := Except DDError Unit

instance : DecidableEq ErrorOrUnit := fun a b =>
  match a, b with
  | .ok x, .ok y =>
    if h : x = y then isTrue (by rw [h]) else isFalse (by intro hh; cases hh; exact h rfl)
  | .error x, .error y =>
    if h : x = y then isTrue (by rw [h]) else isFalse (by intro hh; cases hh; exact h rfl)
  | .ok _, .error _ => isFalse (by intro hh; cases hh)
  | .error _, .ok _ => isFalse (by intro hh; cases hh)

structure DistributorSnapRequest where
  snapPayload : Nat
  snapUID : UID
  tag : Nat
  deriving DecidableEq, Repr

inductive SnapHandlerAction where
  | replyFinished (tag : Nat) (result : ErrorOrUnit)
  | assertionFailure
  | dropOldStartNone (oldTag : Nat)
  | startSnapshot
  deriving DecidableEq, Repr

def repliesOfAction : SnapHandlerAction → List (Nat × ErrorOrUnit)
  | .replyFinished t r => [(t, r)]
  | .assertionFailure => []
  | .dropOldStartNone oldTag => [(oldTag, .error .duplicateSnapshotRequest)]
  | .startSnapshot => []

def handleDistributorSnapRequest (ddSnapReqResultMap : List (UID × ErrorOrUnit))
    (ddSnapReqMap : List (UID × DistributorSnapRequest)) (req : DistributorSnapRequest) :
    SnapHandlerAction × List (UID × DistributorSnapRequest) :=
  match ddSnapReqResultMap.find? (fun e => decide (e.1 = req.snapUID)) with
  | some e => (.replyFinished req.tag e.2, ddSnapReqMap)
  | none =>
    match ddSnapReqMap.find? (fun e => decide (e.1 = req.snapUID)) with
    | some e =>
      if req.snapPayload = e.2.snapPayload then
        (.dropOldStartNone e.2.tag,
          ddSnapReqMap.map (fun x => if x.1 = req.snapUID then (req.snapUID, req) else x))
      else (.assertionFailure, ddSnapReqMap)
    | none => (.startSnapshot, ddSnapReqMap ++ [(req.snapUID, req)])

def completionReplyTag (ddSnapReqMap : List (UID × DistributorSnapRequest)) (uid : UID) :
    Option Nat :=
  (ddSnapReqMap.find? (fun e => decide (e.1 = uid))).map (fun e => e.2.tag)

def snapTestResultMap : List (UID × ErrorOrUnit) := [((1, 1), Except.ok ())]

def snapTestReq : DistributorSnapRequest := { snapPayload := 5, snapUID := (1, 1), tag := 7 }

inductive SnapStep where
  | disablePop
  | getStatefulWorkers
  | snapStorage
  | snapTlog
  | enablePop
  | snapCoord
  | clearFlag
  deriving DecidableEq, Repr

def snapStepOrder : List SnapStep :=
  [.disablePop, .getStatefulWorkers, .snapStorage, .snapTlog, .enablePop, .snapCoord,
   .clearFlag]

def snapStepError : SnapStep → DDError
  | .disablePop => .snapDisableTlogPopFailed
  | .getStatefulWorkers => .snapStorageFailed
  | .snapStorage => .snapStorageFailed
  | .snapTlog => .snapTlogFailed
  | .enablePop => .snapEnableTlogPopFailed
  | .snapCoord => .snapCoordFailed
  | .clearFlag => .operationCancelled

def snapRecoverySet : List DDError :=
  [.snapStorageFailed, .snapTlogFailed, .operationCancelled, .snapDisableTlogPopFailed]

structure SnapCoreRun where
  raised : Option DDError
  recoveryEnablePopAttempted : Bool
  completedSteps : List SnapStep
  deriving DecidableEq, Repr

def ddSnapCreateCore (failAt : Option (SnapStep × Bool)) : SnapCoreRun :=
  match failAt with
  | none =>
    { raised := none, recoveryEnablePopAttempted := false, completedSteps := snapStepOrder }
  | some (s, byCancel) =>
    let e := if byCancel then DDError.operationCancelled else snapStepError s
    { raised := some e,
      recoveryEnablePopAttempted := decide (e ∈ snapRecoverySet),
      completedSteps := snapStepOrder.takeWhile (fun x => decide (x ≠ s)) }

inductive DDEnabledMode where
  | enabled
  | snapshotPreparing (owner : UID)
  | blobRestorePreparing (owner : UID)
  deriving DecidableEq, Repr

def trySetSnapshot (s : DDEnabledMode) (uid : UID) : Bool × DDEnabledMode :=
  match s with
  | .enabled => (true, .snapshotPreparing uid)
  | _ => (false, s)

def trySetEnabled (s : DDEnabledMode) (uid : UID) : Bool × DDEnabledMode :=
  match s with
  | .snapshotPreparing o => if o = uid then (true, .enabled) else (false, s)
  | _ => (false, s)

inductive SnapCreateOutcome where
  | dbInfoChanged
  | coreSuccess
  | timedOut
  | coreError (e : DDError)
  | cancelled
  deriving DecidableEq, Repr

inductive SnapCreateEvent where
  | replyError (e : DDError)
  | replyValue
  | eraseFromSnapMap
  | recordResult (r : ErrorOrUnit)
  | reenable (succeeded : Bool)
  deriving DecidableEq, Repr

def ddSnapCreate (s0 : DDEnabledMode) (uid : UID) (outcome : SnapCreateOutcome) :
    List SnapCreateEvent × DDEnabledMode × Except DDError Unit :=
  let t := trySetSnapshot s0 uid
  if t.1 = false then
    ([.replyError .operationFailed, .eraseFromSnapMap,
      .recordResult (.error .operationFailed)], s0, .ok ())
  else
    match outcome with
    | .dbInfoChanged =>
      let r := trySetEnabled t.2 uid
      ([.replyError .snapWithRecoveryUnsupported, .eraseFromSnapMap,
        .recordResult (.error .snapWithRecoveryUnsupported), .reenable r.1], r.2, .ok ())
    | .coreSuccess =>
      let r := trySetEnabled t.2 uid
      ([.replyValue, .eraseFromSnapMap, .recordResult (.ok ()), .reenable r.1], r.2, .ok ())
    | .timedOut =>
      let r := trySetEnabled t.2 uid
      ([.replyError .timedOut, .eraseFromSnapMap, .recordResult (.error .timedOut),
        .reenable r.1], r.2, .ok ())
    | .coreError e =>
      if e = .operationCancelled then
        let r := trySetEnabled t.2 uid
        ([.reenable r.1], r.2, .error .operationCancelled)
      else
        let r := trySetEnabled t.2 uid
        ([.replyError e, .eraseFromSnapMap, .recordResult (.error e), .reenable r.1],
          r.2, .ok ())
    | .cancelled =>
      let r := trySetEnabled t.2 uid
      ([.reenable r.1], r.2, .error .operationCancelled)

/-! ## Supporting lemmas -/

lemma wiggleEntryLt_irrefl (x : WiggleEntry) : wiggleEntryLt x x = false := by
  rcases x with ⟨⟨t, s, w⟩, u1, u2⟩
  simp [wiggleEntryLt, smtLt, uidLt]

lemma wiggleEntryLt_asymm {a b : WiggleEntry} (h : wiggleEntryLt a b = true) :
    wiggleEntryLt b a = false := by
  rcases a with ⟨⟨ta, sa, wa⟩, x1, x2⟩
  rcases b with ⟨⟨tb, sb, wb⟩, y1, y2⟩
  simp only [wiggleEntryLt, smtLt, uidLt] at h ⊢
  cases wa <;> cases wb <;> simp_all <;> omega

lemma wiggleEntryLt_negTrans {a b c : WiggleEntry} (hab : wiggleEntryLt a b = false)
    (hbc : wiggleEntryLt b c = false) : wiggleEntryLt a c = false := by
  rcases a with ⟨⟨ta, sa, wa⟩, x1, x2⟩
  rcases b with ⟨⟨tb, sb, wb⟩, y1, y2⟩
  rcases c with ⟨⟨tc, sc, wc⟩, z1, z2⟩
  simp only [wiggleEntryLt, smtLt, uidLt] at hab hbc ⊢
  cases wa <;> cases wb <;> cases wc <;> simp_all <;> omega

lemma foldlMin_spec (l : List WiggleEntry) (acc : WiggleEntry) :
    (l.foldl (fun acc x => if wiggleEntryLt x acc then x else acc) acc = acc ∨
      l.foldl (fun acc x => if wiggleEntryLt x acc then x else acc) acc ∈ l) ∧
    wiggleEntryLt acc (l.foldl (fun acc x => if wiggleEntryLt x acc then x else acc) acc) = false ∧
    ∀ x ∈ l, wiggleEntryLt x (l.foldl (fun acc x => if wiggleEntryLt x acc then x else acc) acc) = false := by
  induction l generalizing acc with
  | nil => exact ⟨Or.inl rfl, wiggleEntryLt_irrefl acc, by simp⟩
  | cons x xs ih =>
    simp only [List.foldl_cons]
    set acc2 := if wiggleEntryLt x acc then x else acc with hacc2
    have hcases : acc2 = x ∨ acc2 = acc := by
      rw [hacc2]; split
      · exact Or.inl rfl
      · exact Or.inr rfl
    have hle_acc : wiggleEntryLt acc acc2 = false := by
      rw [hacc2]; split
      · rename_i hx; exact wiggleEntryLt_asymm hx
      · exact wiggleEntryLt_irrefl acc
    have hle_x : wiggleEntryLt x acc2 = false := by
      rw [hacc2]; split
      · exact wiggleEntryLt_irrefl x
      · rename_i hx; simpa using hx
    obtain ⟨ihMem, ihAcc, ihAll⟩ := ih acc2
    refine ⟨?_, ?_, ?_⟩
    · rcases ihMem with h | h
      · rcases hcases with h2 | h2
        · right; rw [h, h2]; exact List.mem_cons_self _ _
        · left; rw [h, h2]
      · right; exact List.mem_cons_of_mem _ h
    · exact wiggleEntryLt_negTrans hle_acc ihAcc
    · intro y hy
      rcases List.mem_cons.mp hy with rfl | hy
      · exact wiggleEntryLt_negTrans hle_x ihAcc
      · exact ihAll y hy

lemma findTop_spec {q : List WiggleEntry} {e : WiggleEntry} (h : findTop q = some e) :
    e ∈ q ∧ ∀ x ∈ q, wiggleEntryLt x e = false := by
  cases q with
  | nil => simp [findTop] at h
  | cons a as =>
    simp only [findTop, Option.some.injEq] at h
    obtain ⟨hMem, hAcc, hAll⟩ := foldlMin_spec as a
    subst h
    constructor
    · rcases hMem with h | h
      · rw [h]; exact List.mem_cons_self _ _
      · exact List.mem_cons_of_mem _ h
    · intro x hx
      rcases List.mem_cons.mp hx with rfl | hx
      · exact hAcc
      · exact hAll x hx

lemma specLe_of_not_lt {a b : WiggleEntry} (h : wiggleEntryLt b a = false) :
    wiggleSpecLe a b := by
  rcases a with ⟨⟨ta, sa, wa⟩, x1, x2⟩
  rcases b with ⟨⟨tb, sb, wb⟩, y1, y2⟩
  simp only [wiggleEntryLt, smtLt, uidLt] at h
  simp only [wiggleSpecLe]
  cases wa <;> cases wb <;> simp_all

lemma popAllFuel_subset : ∀ (fuel : Nat) (q : List WiggleEntry),
    ∀ x ∈ popAllFuel fuel q, x ∈ q := by
  intro fuel
  induction fuel with
  | zero => intro q x hx; simp [popAllFuel] at hx
  | succ n ih =>
    intro q x hx
    simp only [popAllFuel] at hx
    cases h : findTop q with
    | none => rw [h] at hx; simp at hx
    | some e =>
      rw [h] at hx
      rcases List.mem_cons.mp hx with rfl | hx
      · exact (findTop_spec h).1
      · exact List.mem_of_mem_erase (ih (q.erase e) x hx)

lemma popAllFuel_sorted : ∀ (fuel : Nat) (q : List WiggleEntry),
    List.Pairwise wiggleSpecLe (popAllFuel fuel q) := by
  intro fuel
  induction fuel with
  | zero => intro q; simp [popAllFuel]
  | succ n ih =>
    intro q
    simp only [popAllFuel]
    cases h : findTop q with
    | none => simp
    | some e =>
      refine List.pairwise_cons.mpr ⟨?_, ih (q.erase e)⟩
      intro y hy
      have hyq : y ∈ q := List.mem_of_mem_erase (popAllFuel_subset n (q.erase e) y hy)
      exact specLe_of_not_lt ((findTop_spec h).2 y hyq)

lemma drainIds_eq (nowT minAge : Int) : ∀ (fuel : Nat) (q : List WiggleEntry),
    drainIds nowT minAge fuel q = (popAllFuel fuel q).map (fun e => e.2) := by
  intro fuel
  induction fuel with
  | zero => intro q; simp [drainIds, popAllFuel]
  | succ n ih =>
    intro q
    simp only [drainIds, popAllFuel, getNextServerId]
    cases h : findTop q with
    | none => simp
    | some e => simp [ih]

lemma testShards_length (N P : Nat) : (testShards N P).length = N + 1 := by
  simp [testShards]

lemma testShards_get_lt (N P j : Nat) (h : j < N) :
    (testShards N P)[j]? = some
      { key := j + 1, primarySrc := [(j + 1, 0)],
        primaryDest := if j < P then [(j + 2, 0)] else [],
        hasDest := decide (j < P) } := by
  unfold testShards
  rw [List.getElem?_append]
  simp [h, List.getElem?_map, List.getElem?_range h]

lemma testShards_get_sentinel (N P : Nat) :
    (testShards N P)[N]? = some { key := N + 1 } := by
  unfold testShards
  rw [List.getElem?_append_right (by simp)]
  simp

lemma testShards_key (N P j : Nat) (h : j ≤ N) :
    ∃ s : DDShardInfo, (testShards N P)[j]? = some s ∧ s.key = j + 1 := by
  rcases Nat.lt_or_ge j N with h1 | h1
  · exact ⟨_, testShards_get_lt N P j h1, rfl⟩
  · obtain rfl : j = N := le_antisymm h h1
    exact ⟨_, testShards_get_sentinel _ P, rfl⟩

lemma testShards_step (k : Knobs) (N P j : Nat) (hj : j < N) (orc : Nat)
    (bs : List Key) (hbs : bs = [] ∨ bs = [0]) :
    ∀ m, shardLoop (testEnv k) (testShards N P) (m + 1) j bs orc =
      match shardLoop (testEnv k) (testShards N P) m (j + 1) [] orc with
      | .ok rest => .ok ((if j < P then [testRS j] else []) ++ rest)
      | .error e => .error e := by
  intro m
  obtain ⟨s2, hs2, hkey2⟩ := testShards_key N P (j + 1) hj
  rw [shardLoop]
  rw [testShards_get_lt N P j hj, hs2]
  have hskip : skipBoundaries (j + 1) bs = [] := by
    rcases hbs with rfl | rfl
    · rfl
    · simp [skipBoundaries]
  simp only [hskip, hkey2]
  have hsplit : splitRanges (j + 1 + 1) (j + 1) [] = ([⟨j + 1, j + 2⟩], []) := by rfl
  simp only [hsplit]
  have hproc : processSubranges (testEnv k)
      { key := j + 1, primarySrc := [(j + 1, 0)],
        primaryDest := if j < P then [(j + 2, 0)] else [],
        hasDest := decide (j < P) } [⟨j + 1, j + 2⟩] 0 orc =
      ((if j < P then [testRS j] else []), orc) := by
    simp only [processSubranges, computeUnhealthy, emitForSubrange, replicationFactorAt,
      testEnv, testRS]
    by_cases hp : j < P <;> simp [hp]
  simp only [hproc]

lemma testShards_loop_emits (k : Knobs) (N P : Nat) :
    ∀ m j orc bs, j + m = N → P ≤ N → bs = [] ∨ bs = [0] →
    shardLoop (testEnv k) (testShards N P) m j bs orc =
      .ok ((List.range' j (N - j)).filterMap fun i =>
        if i < P then some (testRS i) else none) := by
  intro m
  induction m with
  | zero =>
    intro j orc bs hj _ _
    have : N - j = 0 := by omega
    simp [this, shardLoop, List.range']
  | succ m ih =>
    intro j orc bs hj hPN hbs
    have hjN : j < N := by omega
    rw [testShards_step k N P j hjN orc bs hbs m]
    rw [ih (j + 1) orc [] (by omega) hPN (Or.inl rfl)]
    have hrange : N - j = (N - (j + 1)) + 1 := by omega
    rw [hrange]
    have : List.range' j (N - (j + 1) + 1) = j :: List.range' (j + 1) (N - (j + 1)) := by
      simp [List.range'_succ]
    rw [this]
    by_cases hp : j < P <;> simp [hp, List.filterMap_cons]

lemma filterMap_all_lt {α : Type} (P : Nat) (f : Nat → α) :
    ∀ l : List Nat, (∀ i ∈ l, i < P) →
      l.filterMap (fun i => if i < P then some (f i) else none) = l.map f := by
  intro l
  induction l with
  | nil => intro _; rfl
  | cons x xs ih =>
    intro h
    have hx : x < P := h x (List.mem_cons_self _ _)
    simp only [List.filterMap_cons, hx, if_pos, List.map_cons]
    rw [ih (fun i hi => h i (List.mem_cons_of_mem _ hi))]

lemma filterMap_none_ge {α : Type} (P : Nat) (f : Nat → α) :
    ∀ l : List Nat, (∀ i ∈ l, ¬ i < P) →
      l.filterMap (fun i => if i < P then some (f i) else none) = [] := by
  intro l
  induction l with
  | nil => intro _; rfl
  | cons x xs ih =>
    intro h
    have hx : ¬ x < P := h x (List.mem_cons_self _ _)
    simp only [List.filterMap_cons, hx, if_neg, if_false]
    exact ih (fun i hi => h i (List.mem_cons_of_mem _ hi))

lemma filterMap_range_lt {α : Type} (P N : Nat) (h : P ≤ N) (f : Nat → α) :
    (List.range' 0 N).filterMap (fun i => if i < P then some (f i) else none) =
      (List.range P).map f := by
  rw [← List.range_eq_range']
  have hN : N = P + (N - P) := by omega
  rw [hN, List.range_add, List.filterMap_append]
  rw [filterMap_all_lt P f (List.range P) (by intro i hi; simpa using List.mem_range.mp hi)]
  rw [filterMap_none_ge P f _ (by intro i hi; simp at hi; omega)]
  simp

lemma resumeRelocations_cases (env : ResumeEnv) (shards : List DDShardInfo)
    (knobs : Knobs) (entries : List (KeyRange × DataMove)) (a : List RelocateShard)
    (b : List DMEvent)
    (h : resumeRelocations env shards knobs entries = .ok (a, b)) :
    resumeFromShards env shards = .ok a ∧ resumeFromDataMoves knobs entries = .ok b := by
  unfold resumeRelocations at h
  cases h1 : resumeFromShards env shards with
  | error e =>
    rw [h1] at h
    simp [Except.bind] at h
  | ok a2 =>
    rw [h1] at h
    cases h2 : resumeFromDataMoves knobs entries with
    | error e =>
      rw [h2] at h
      simp [Except.bind, Except.map] at h
    | ok b2 =>
      rw [h2] at h
      simp only [Except.bind, Except.map, Except.ok.injEq, Prod.mk.injEq] at h
      exact ⟨by rw [h.1], by rw [h.2]⟩

lemma auditStorageCore_childFail_retry (maxRetry rc : Nat) (h : rc < maxRetry) :
    auditStorageCore maxRetry rc childFailEnv =
      ([.clearChildFailedFlag, .clearActors, .removeFromMap, .scheduleRetry (rc + 1)],
        .done) := by
  simp [auditStorageCore, childFailEnv, auditCoreCatch, h]

lemma auditStorageCore_childFail_exhausted (maxRetry rc : Nat) (h : ¬ rc < maxRetry) :
    auditStorageCore maxRetry rc childFailEnv =
      ([.clearChildFailedFlag, .setPhase .Failed, .persist .Failed true, .removeFromMap],
        .done) := by
  simp [auditStorageCore, childFailEnv, auditCoreCatch, h]

lemma auditRetryGenerations_spec (maxRetry : Nat) : ∀ (d rc : Nat), rc + d = maxRetry →
    auditRetryGenerations maxRetry (d + 1) rc =
      ((List.range' rc d).map
        (fun i => [AuditEvent.clearChildFailedFlag, .clearActors, .removeFromMap,
          .scheduleRetry (i + 1)])).flatten ++
        [.clearChildFailedFlag, .setPhase .Failed, .persist .Failed true,
          .removeFromMap] := by
  intro d
  induction d with
  | zero =>
    intro rc h
    have hge : ¬ rc < maxRetry := by omega
    simp only [auditRetryGenerations, auditStorageCore_childFail_exhausted maxRetry rc hge]
    simp [List.range']
  | succ n ih =>
    intro rc h
    have hlt : rc < maxRetry := by omega
    rw [auditRetryGenerations]
    simp only [auditStorageCore_childFail_retry maxRetry rc hlt]
    rw [if_pos (by simp)]
    rw [ih (rc + 1) (by omega)]
    simp [List.range'_succ]

lemma find?_map_replace (l : List (UID × DistributorSnapRequest)) (uid : UID)
    (req : DistributorSnapRequest)
    (h : (l.find? (fun e => decide (e.1 = uid))).isSome) :
    (l.map (fun x => if x.1 = uid then (uid, req) else x)).find?
      (fun e => decide (e.1 = uid)) = some (uid, req) := by
  induction l with
  | nil => simp [List.find?] at h
  | cons x xs ih =>
    by_cases hx : x.1 = uid
    · simp [List.find?, hx]
    · rw [List.map_cons, if_neg hx]
      rw [List.find?_cons_of_neg _ (by simpa using hx)]
      rw [List.find?_cons_of_neg _ (by simpa using hx)] at h
      exact ih h

/-! ## Claim theorems -/

/-- Claim C1: in ResumeEngine Phase A, a sub-range emits a `RelocateShard`
iff (large-teams support is enabled and (the sub-range is unhealthy or its
index within its shard is positive)) or (the shard has a destination whose
id is the anonymous shard id); the reason is `TEAM_UNHEALTHY` when
unhealthy, else `SPLIT_SHARD` for positive index, else `RECOVER_MOVE`.  For
an initial distribution whose first `P = DD_MOVE_KEYS_PARALLELISM` shards
have a destination with the anonymous id and the rest have none (single
region, team size 1, as built by the source unit test), `resumeFromShards`
emits exactly `P` relocations with priority `PRIORITY_RECOVER_MOVE`,
anonymous `dataMoveId`, `cancelled = false`, `restore = false`, and keys
spanning consecutive shard boundaries. -/

theorem C1_resume_from_shards (env : ResumeEnv) (iShard : DDShardInfo) (keys : KeyRange)
    (r : Nat) (unhealthy : Bool) (k : Knobs) (N P : Nat) (hPN : P ≤ N)
    (hN : N < SIZE_T_MOD) :
    ((emitForSubrange env iShard keys r unhealthy).isSome =
      ((env.knobs.largeTeamsEnabled && (unhealthy || decide (r > 0))) ||
        (iShard.hasDest && decide (iShard.destId = anonymousShardId)))) ∧
    (∀ rs, emitForSubrange env iShard keys r unhealthy = some rs →
      rs.keys = keys ∧
      rs.reason = (if unhealthy then .TEAM_UNHEALTHY
        else if r > 0 then .SPLIT_SHARD else .RECOVER_MOVE) ∧
      rs.dataMoveId = anonymousShardId ∧ rs.cancelled = false ∧ rs.isRestore = false) ∧
    (resumeFromShards (testEnv k) (testShards N P) =
      .ok ((List.range P).map testRS)) ∧
    (∀ j, (testRS j).priority = PRIORITY_RECOVER_MOVE ∧
      (testRS j).reason = .RECOVER_MOVE ∧
      (testRS j).dataMoveId = anonymousShardId ∧ (testRS j).cancelled = false ∧
      (testRS j).isRestore = false ∧
      ∀ s1 s2 : DDShardInfo, (testShards N P)[j]? = some s1 →
        (testShards N P)[j + 1]? = some s2 →
        (testRS j).keys = ⟨s1.key, s2.key⟩) := by
  refine ⟨?_, ?_, ?_, ?_⟩
  · unfold emitForSubrange
    split <;> simp_all
  · intro rs h
    unfold emitForSubrange at h
    split at h
    · cases h
      refine ⟨rfl, rfl, rfl, rfl, rfl⟩
    · cases h
  · unfold resumeFromShards
    have hrem : ((testShards N P).length + (SIZE_T_MOD - 1)) % SIZE_T_MOD = N := by
      rw [testShards_length]
      unfold SIZE_T_MOD at hN ⊢
      omega
    rw [hrem]
    have hcb : customBoundaries (testEnv k) = [0] := by rfl
    rw [hcb]
    rw [testShards_loop_emits k N P N 0 0 [0] (by omega) hPN (Or.inr rfl)]
    rw [Nat.sub_zero, filterMap_range_lt P N hPN testRS]
  · intro j
    refine ⟨rfl, rfl, rfl, rfl, rfl, ?_⟩
    intro s1 s2 h1 h2
    -- keys of testRS j are ⟨j+1, j+2⟩; shard keys are j+1 and j+2 when in range
    by_cases hj : j ≤ N
    · obtain ⟨t1, ht1, hk1⟩ := testShards_key N P j hj
      rw [ht1] at h1
      cases h1
      by_cases hj2 : j + 1 ≤ N
      · obtain ⟨t2, ht2, hk2⟩ := testShards_key N P (j + 1) hj2
        rw [ht2] at h2
        cases h2
        simp [testRS, hk1, hk2]
      · exfalso
        have : (testShards N P)[j + 1]? = none := by
          rw [List.getElem?_eq_none]
          rw [testShards_length]
          omega
        rw [this] at h2
        cases h2
    · exfalso
      have : (testShards N P)[j]? = none := by
        rw [List.getElem?_eq_none]
        rw [testShards_length]
        omega
      rw [this] at h1
      cases h1

theorem C1_resume_from_shards_witness :
    2 ≤ 3 ∧ 3 < SIZE_T_MOD ∧
    resumeFromShards (testEnv defaultKnobs) (testShards 3 2) =
      .ok ((List.range 2).map testRS) :=
  ⟨by decide, by decide,
    (C1_resume_from_shards (testEnv defaultKnobs) { key := 0 } ⟨0, 1⟩ 0 false
      defaultKnobs 3 2 (by decide) (by decide)).2.2.1⟩

/-- Claim C2: in ResumeEngine Phase B, a data-move map entry with empty
`meta.ranges` is skipped; a cancelled entry, or a valid one while
physical-shard encoding is disabled, contributes exactly one relocation
with keys `meta.ranges.front()`, `dataMoveId = meta.id` and
`cancelled = true`; a remaining valid entry whose front range differs from
the map range fails the assertion, and otherwise contributes the
tracker-restart, `defineShard` and `moveShard` registrations (teams built
from `primaryDest` and, when non-empty, `remoteDest`) followed by one
restore relocation carrying `dataMoveId = meta.id` and the restored
`DataMove`; and Phase B output follows Phase A output in
`resumeRelocations`. -/

theorem C2_resume_from_data_moves (knobs : Knobs) (range : KeyRange) (dm : DataMove)
    (rest : List (KeyRange × DataMove)) :
    (resumeFromDataMoves knobs ((range, dm) :: rest) =
      dataMoveStep knobs range dm dm.meta.ranges (resumeFromDataMoves knobs rest)) ∧
    (dm.meta.ranges = [] → ∀ tail,
      dataMoveStep knobs range dm dm.meta.ranges tail = tail) ∧
    (∀ front tl, dm.meta.ranges = front :: tl →
      (dm.isCancelled || (dm.valid && !knobs.SHARD_ENCODE_LOCATION_METADATA)) = true →
      ∀ tail, dataMoveStep knobs range dm dm.meta.ranges tail =
        tail.map (fun es =>
          .send { keys := front, reason := .RECOVER_MOVE, dataMoveId := dm.meta.id,
                  cancelled := true } :: es)) ∧
    (∀ front tl, dm.meta.ranges = front :: tl →
      (dm.isCancelled || (dm.valid && !knobs.SHARD_ENCODE_LOCATION_METADATA)) = false →
      dm.valid = true → front ≠ range →
      ∀ tail, dataMoveStep knobs range dm dm.meta.ranges tail =
        .error "ASSERT failed: meta.ranges.front() == it.range()") ∧
    (∀ front tl, dm.meta.ranges = front :: tl →
      (dm.isCancelled || (dm.valid && !knobs.SHARD_ENCODE_LOCATION_METADATA)) = false →
      dm.valid = true → front = range →
      ∀ tail, dataMoveStep knobs range dm dm.meta.ranges tail =
        tail.map (fun es =>
          .restartTracker front :: .defineShard front ::
            .moveShard front (Team.mk dm.primaryDest true ::
              (if dm.remoteDest.isEmpty then [] else [Team.mk dm.remoteDest false])) ::
            .send { keys := front, reason := .RECOVER_MOVE, dataMoveId := dm.meta.id,
                    dataMove := some dm } :: es)) ∧
    (∀ (env : ResumeEnv) (shards : List DDShardInfo) (a : List RelocateShard)
        (b : List DMEvent),
      resumeRelocations env shards knobs ((range, dm) :: rest) = .ok (a, b) →
      resumeFromShards env shards = .ok a ∧
      resumeFromDataMoves knobs ((range, dm) :: rest) = .ok b) := by
  refine ⟨rfl, ?_, ?_, ?_, ?_, ?_⟩
  · intro h tail
    rw [h]
    rfl
  · intro front tl h hc tail
    rw [h]
    simp only [dataMoveStep]
    simp [hc]
  · intro front tl h hc hv hne tail
    rw [h]
    simp only [dataMoveStep]
    simp [hv] at hc
    simp [hc, hv, hne]
  · intro front tl h hc hv heq tail
    subst heq
    rw [h]
    simp only [dataMoveStep]
    simp [hv] at hc
    simp [hc, hv, restoreTeams]
  · intro env shards a b h
    exact resumeRelocations_cases env shards knobs ((range, dm) :: rest) a b h

theorem C2_resume_from_data_moves_witness :
    ({ meta := { id := ((5, 5) : UID), ranges := ([] : List KeyRange) }, primaryDest := [],
       remoteDest := [], valid := true, cancelled := false : DataMove }).meta.ranges = [] ∧
    dataMoveStep
        { largeTeamsEnabled := true, DD_MAX_SHARDS_ON_LARGE_TEAMS := 100,
          SHARD_ENCODE_LOCATION_METADATA := true, AUDIT_RETRY_COUNT_MAX := 6 }
        ⟨1, 2⟩
        { meta := { id := (5, 5), ranges := [] }, primaryDest := [],
          remoteDest := [], valid := true, cancelled := false }
        ({ meta := { id := ((5, 5) : UID), ranges := ([] : List KeyRange) }, primaryDest := [],
           remoteDest := [], valid := true, cancelled := false : DataMove }).meta.ranges
        (.ok []) = .ok [] :=
  ⟨rfl,
    (C2_resume_from_data_moves
      { largeTeamsEnabled := true, DD_MAX_SHARDS_ON_LARGE_TEAMS := 100,
        SHARD_ENCODE_LOCATION_METADATA := true, AUDIT_RETRY_COUNT_MAX := 6 }
      ⟨1, 2⟩
      { meta := { id := (5, 5), ranges := [] }, primaryDest := [],
        remoteDest := [], valid := true, cancelled := false } []).2.1 rfl (.ok [])⟩

/-- Claim C3: when an audit of the requested type already exists,
`launchAudit` returns the id of the first existing audit whose range
contains the requested range and whose phase is `Running`, and fails with
`audit_storage_exceeded_request_limit` when no such audit exists; in
particular a request for `[2, 3)` while a `Running` audit covers `[0, 25)`
returns the existing id. -/

theorem C3_launch_audit (audits : List DDAudit) (auditRange : KeyRange) (freshId : UID) :
    (audits ≠ [] → ∀ found, audits.find? (launchPred auditRange) = some found →
      launchAudit audits auditRange freshId = .ok found.coreState.id ∧
      found ∈ audits ∧ found.coreState.range.containsRange auditRange = true ∧
      found.coreState.phase = .Running) ∧
    (audits ≠ [] →
      (∀ a ∈ audits, ¬(a.coreState.range.containsRange auditRange = true ∧
        a.coreState.phase = .Running)) →
      launchAudit audits auditRange freshId = .error .auditStorageExceededRequestLimit) ∧
    (launchAudit
        [{ coreState := { id := (9, 9), range := ⟨0, 25⟩, phase := .Running } }]
        ⟨2, 3⟩ (1, 1) = .ok (9, 9)) := by
  refine ⟨?_, ?_, rfl⟩
  · intro hne found hfind
    have hmem : found ∈ audits := List.mem_of_find?_eq_some hfind
    have hpred : launchPred auditRange found = true := List.find?_some hfind
    unfold launchPred at hpred
    simp only [Bool.and_eq_true, decide_eq_true_eq] at hpred
    refine ⟨?_, hmem, hpred.1, hpred.2⟩
    unfold launchAudit
    rw [if_neg (by simpa using hne)]
    rw [hfind]
  · intro hne hall
    unfold launchAudit
    rw [if_neg (by simpa using hne)]
    have hnone : audits.find? (launchPred auditRange) = none := by
      rw [List.find?_eq_none]
      intro a ha
      have := hall a ha
      unfold launchPred
      simp only [Bool.and_eq_true, decide_eq_true_eq]
      tauto
    rw [hnone]

theorem C3_launch_audit_witness :
    ([haTestAudit] : List DDAudit) ≠ [] ∧
    launchAudit [haTestAudit] ⟨2, 3⟩ (1, 1) = .ok (9, 9) ∧
    launchAudit [haTestAudit] ⟨2, 3⟩ (1, 1) = .ok haTestAudit.coreState.id :=
  ⟨by decide, by rfl,
    ((C3_launch_audit [haTestAudit] ⟨2, 3⟩ (1, 1)).1 (by decide) haTestAudit (by rfl)).1⟩

/-- Claim C4: after all children of `auditStorageCore` finish (no body
error) the phase becomes `Error` when `foundError` is set; else a retry is
raised after clearing `anyChildAuditFailed` when that flag is set (and with
retry budget left the generation reschedules with the incremented count);
else the phase becomes `Complete`; and in the `Error` and `Complete` cases
the final phase is persisted strictly before the audit is removed from the
runtime map, as the event order shows. -/

theorem C4_audit_core_completion (maxRetry rc : Nat) (env : AuditGenEnv)
    (hbody : env.bodyError = none) (hpersist : env.persistResult = none) :
    (env.foundError = true →
      auditStorageCore maxRetry rc env =
        ([.setPhase .Error, .persist .Error true, .removeFromMap], .done)) ∧
    (env.foundError = false → env.anyChildAuditFailed = true →
      auditStorageCore maxRetry rc env =
        auditCoreCatch maxRetry rc env.persistFailedResult .retryError
          [.clearChildFailedFlag]) ∧
    (env.foundError = false → env.anyChildAuditFailed = true → rc < maxRetry →
      auditStorageCore maxRetry rc env =
        ([.clearChildFailedFlag, .clearActors, .removeFromMap, .scheduleRetry (rc + 1)],
          .done)) ∧
    (env.foundError = false → env.anyChildAuditFailed = false →
      auditStorageCore maxRetry rc env =
        ([.setPhase .Complete, .persist .Complete true, .removeFromMap], .done)) := by
  refine ⟨?_, ?_, ?_, ?_⟩
  · intro hf
    simp [auditStorageCore, hbody, hpersist, hf]
  · intro hf ha
    simp [auditStorageCore, hbody, hpersist, hf, ha]
  · intro hf ha hlt
    simp [auditStorageCore, hbody, hpersist, hf, ha, auditCoreCatch, hlt]
  · intro hf ha
    simp [auditStorageCore, hbody, hpersist, hf, ha]

theorem C4_audit_core_completion_witness :
    (childFailEnv.bodyError = none) ∧ (childFailEnv.persistResult = none) ∧
    (childFailEnv.foundError = false) ∧ (childFailEnv.anyChildAuditFailed = true) ∧
    (0 < 3) ∧
    auditStorageCore 3 0 childFailEnv =
      ([.clearChildFailedFlag, .clearActors, .removeFromMap, .scheduleRetry 1], .done) :=
  ⟨rfl, rfl, rfl, rfl, by decide,
    (C4_audit_core_completion 3 0 childFailEnv rfl rfl).2.2.1 rfl rfl (by decide)⟩

/-- Claim C5: in the `auditStorageCore` error handler, cancellation and
`movekeys_conflict` propagate unchanged; `not_implemented` or an exhausted
retry budget sets phase `Failed` with a best-effort persist (tolerating
persistence failure) and removes the audit from the map; every other error
increments the retry count, clears the task group, removes the audit and
schedules a fresh generation with the new count; consequently, when every
child always fails retryably, after `AUDIT_RETRY_COUNT_MAX` retrying
generations the durable phase becomes `Failed` and the runtime entry is
removed. -/

theorem C5_audit_core_errors (maxRetry rc : Nat) (pfr : Option DDError) (e : DDError)
    (evs : List AuditEvent) :
    ((e = .operationCancelled ∨ e = .movekeysConflict) →
      auditCoreCatch maxRetry rc pfr e evs = (evs, .thrown e)) ∧
    (¬(e = .operationCancelled ∨ e = .movekeysConflict) → rc < maxRetry →
      e ≠ .notImplemented →
      auditCoreCatch maxRetry rc pfr e evs =
        (evs ++ [.clearActors, .removeFromMap, .scheduleRetry (rc + 1)], .done)) ∧
    (¬(e = .operationCancelled ∨ e = .movekeysConflict) →
      (e = .notImplemented ∨ maxRetry ≤ rc) →
      auditCoreCatch maxRetry rc pfr e evs =
        (evs ++ [.setPhase .Failed, .persist .Failed pfr.isNone, .removeFromMap], .done)) ∧
    (∀ mx : Nat, auditRetryGenerations mx (mx + 1) 0 =
      ((List.range' 0 mx).map
        (fun i => [AuditEvent.clearChildFailedFlag, .clearActors, .removeFromMap,
          .scheduleRetry (i + 1)])).flatten ++
        [.clearChildFailedFlag, .setPhase .Failed, .persist .Failed true,
          .removeFromMap]) := by
  refine ⟨?_, ?_, ?_, ?_⟩
  · intro hce
    simp [auditCoreCatch, hce]
  · intro hce hlt hni
    simp only [auditCoreCatch, if_neg hce]
    rw [if_pos ⟨hlt, hni⟩]
  · intro hce hd
    simp only [auditCoreCatch, if_neg hce]
    rw [if_neg (by rintro ⟨h1, h2⟩; rcases hd with hd | hd; exact h2 hd; omega)]
  · intro mx
    exact auditRetryGenerations_spec mx mx 0 (by omega)

theorem C5_audit_core_errors_witness :
    (¬(DDError.retryError = .operationCancelled ∨ DDError.retryError = .movekeysConflict)) ∧
    (0 < 2) ∧ (DDError.retryError ≠ .notImplemented) ∧
    auditCoreCatch 2 0 none .retryError [] =
      ([.clearActors, .removeFromMap, .scheduleRetry 1], .done) :=
  ⟨by decide, by decide, by decide,
    (C5_audit_core_errors 2 0 none .retryError []).2.1 (by decide) (by decide) (by decide)⟩

/-- Claim C6 (counterexample): a second `DistributorSnap` request with the
same uid as an in-flight one but a different payload is not answered with
`duplicate_snapshot_request`; the handler fails the payload-equality
assertion instead, and no reply carrying that error goes to the second
request. -/

theorem C6_snap_dedup_counterexample :
    (handleDistributorSnapRequest []
      [((1, 1), { snapPayload := 5, snapUID := (1, 1), tag := 1 })]
      { snapPayload := 6, snapUID := (1, 1), tag := 2 }).1 = .assertionFailure ∧
    (2, (Except.error .duplicateSnapshotRequest : ErrorOrUnit)) ∉
      repliesOfAction (handleDistributorSnapRequest []
        [((1, 1), { snapPayload := 5, snapUID := (1, 1), tag := 1 })]
        { snapPayload := 6, snapUID := (1, 1), tag := 2 }).1 := by
  exact ⟨rfl, by simp [handleDistributorSnapRequest, repliesOfAction, List.find?]⟩

/-- Claim C6 (amended): `DistributorSnap` requests are deduplicated on
`snapUID`: a request whose uid has a retained finished result is answered
with that prior result; while a request with the same uid is in flight, a
second request with matching payload causes the in-flight (first) request
to be answered with `duplicate_snapshot_request` while the second replaces
it in the in-flight map and so receives the eventual outcome; a second
request with a differing payload fails an assertion (it is not answered
with `duplicate_snapshot_request`); and a fresh uid starts a snapshot. -/

theorem C6_snap_dedup (resultMap : List (UID × ErrorOrUnit))
    (reqMap : List (UID × DistributorSnapRequest)) (req : DistributorSnapRequest) :
    (∀ r, resultMap.find? (fun e => decide (e.1 = req.snapUID)) = some r →
      handleDistributorSnapRequest resultMap reqMap req =
        (.replyFinished req.tag r.2, reqMap)) ∧
    (∀ old, resultMap.find? (fun e => decide (e.1 = req.snapUID)) = none →
      reqMap.find? (fun e => decide (e.1 = req.snapUID)) = some old →
      req.snapPayload = old.2.snapPayload →
      (handleDistributorSnapRequest resultMap reqMap req).1 =
        .dropOldStartNone old.2.tag ∧
      (old.2.tag, (Except.error .duplicateSnapshotRequest : ErrorOrUnit)) ∈
        repliesOfAction (handleDistributorSnapRequest resultMap reqMap req).1 ∧
      completionReplyTag (handleDistributorSnapRequest resultMap reqMap req).2
        req.snapUID = some req.tag) ∧
    (∀ old, resultMap.find? (fun e => decide (e.1 = req.snapUID)) = none →
      reqMap.find? (fun e => decide (e.1 = req.snapUID)) = some old →
      req.snapPayload ≠ old.2.snapPayload →
      (handleDistributorSnapRequest resultMap reqMap req).1 = .assertionFailure) ∧
    (resultMap.find? (fun e => decide (e.1 = req.snapUID)) = none →
      reqMap.find? (fun e => decide (e.1 = req.snapUID)) = none →
      handleDistributorSnapRequest resultMap reqMap req =
        (.startSnapshot, reqMap ++ [(req.snapUID, req)])) := by
  refine ⟨?_, ?_, ?_, ?_⟩
  · intro r hr
    unfold handleDistributorSnapRequest
    rw [hr]
  · intro old hnone hold hpay
    unfold handleDistributorSnapRequest
    simp only [hnone, hold]
    rw [if_pos hpay]
    refine ⟨rfl, by simp [repliesOfAction], ?_⟩
    unfold completionReplyTag
    rw [find?_map_replace reqMap req.snapUID req (by rw [hold]; rfl)]
    rfl
  · intro old hnone hold hpay
    unfold handleDistributorSnapRequest
    simp only [hnone, hold]
    rw [if_neg hpay]
  · intro hnone hnone2
    unfold handleDistributorSnapRequest
    rw [hnone, hnone2]

theorem C6_snap_dedup_witness :
    snapTestResultMap.find? (fun e => decide (e.1 = snapTestReq.snapUID)) =
      some ((1, 1), Except.ok ()) ∧
    handleDistributorSnapRequest snapTestResultMap [] snapTestReq =
      (.replyFinished snapTestReq.tag (Except.ok ()), []) :=
  ⟨by rfl,
    (C6_snap_dedup snapTestResultMap [] snapTestReq).1 ((1, 1), Except.ok ()) (by rfl)⟩

/-! ### ddSnapCreateCore failure recovery -/

/-- Claim C7 (counterexample): not every error raised after tlog pops were
disabled triggers the best-effort enable-pop recovery: a failure of the
enable-pop step itself (`snap_enable_tlog_pop_failed`) and a coordinator
snapshot failure (`snap_coord_failed`) are rethrown without the recovery
attempt, although the disable-pop step had completed. -/

theorem C7_snap_recovery_counterexample :
    (ddSnapCreateCore (some (.enablePop, false))).raised = some .snapEnableTlogPopFailed ∧
    SnapStep.disablePop ∈ (ddSnapCreateCore (some (.enablePop, false))).completedSteps ∧
    (ddSnapCreateCore (some (.enablePop, false))).recoveryEnablePopAttempted = false ∧
    (ddSnapCreateCore (some (.snapCoord, false))).recoveryEnablePopAttempted = false := by
  refine ⟨rfl, by decide, rfl, rfl⟩

/-- Claim C7 (amended): in `ddSnapCreateCore`, the catch handler attempts
enable-pop on all local tlogs (best-effort) exactly when the raised error
is `snap_storage_failed`, `snap_tlog_failed`, `operation_cancelled` or
`snap_disable_tlog_pop_failed`: that is, for cancellation anywhere and for
failures of the disable-pop, stateful-worker retrieval, storage-snapshot
and tlog-snapshot steps (and for the clear-flag transaction, whose only
escaping failure is cancellation) — but not for enable-pop or coordinator
snapshot failures; a run with no failure rethrows nothing and attempts no
recovery. -/

theorem C7_snap_recovery :
    (∀ (s : SnapStep) (byCancel : Bool),
      (ddSnapCreateCore (some (s, byCancel))).recoveryEnablePopAttempted =
        (byCancel || decide (s ∈ ([.disablePop, .getStatefulWorkers, .snapStorage,
          .snapTlog, .clearFlag] : List SnapStep)))) ∧
    (ddSnapCreateCore none).raised = none ∧
    (ddSnapCreateCore none).recoveryEnablePopAttempted = false := by
  refine ⟨?_, rfl, rfl⟩
  intro s byCancel
  cases s <;> cases byCancel <;> rfl

/-- Claim C8: draining a wiggle queue by successive `getNextServerId`
calls yields entries sorted ascending by `(not wrong_configured,
created_time)`, and the returned ids are exactly those entries' ids;
`getNextServerId` on an empty queue returns none; and with
`necessaryOnly = true` it returns none without popping when the minimum
entry is neither wrongly configured nor older than the minimum-age
threshold. -/

theorem C8_wiggler_order :
    (∀ q : List WiggleEntry, List.Pairwise wiggleSpecLe (popAll q) ∧
      ∀ nowT minAge : Int, drainIds nowT minAge q.length q = (popAll q).map (fun e => e.2)) ∧
    (∀ (nowT minAge : Int) (b : Bool), getNextServerId nowT minAge b [] = (none, [])) ∧
    (∀ (nowT minAge : Int) (q : List WiggleEntry) (e : WiggleEntry),
      findTop q = some e → necessary nowT minAge e.1 = false →
      getNextServerId nowT minAge true q = (none, q)) := by
  refine ⟨?_, ?_, ?_⟩
  · intro q
    exact ⟨popAllFuel_sorted q.length q, fun nowT minAge => drainIds_eq nowT minAge q.length q⟩
  · intro nowT minAge b; simp [getNextServerId, findTop]
  · intro nowT minAge q e htop hnec
    simp [getNextServerId, htop, hnec]

theorem C8_wiggler_order_witness :
    getNextServerId 10 100 true [({ createdTime := 5 }, (1, 0))] =
      (none, [({ createdTime := 5 }, (1, 0))]) :=
  C8_wiggler_order.2.2 10 100 _ ({ createdTime := 5 }, (1, 0)) (by rfl) (by decide)

/-- Claim C9 (counterexample): `resumeFromShards` applied to an initial
distribution with zero shards does not emit nothing — the unsigned loop
bound `shards.size() - 1` underflows and the first iteration reads
`shards[0]` out of bounds. -/

theorem C9_resume_boundaries_counterexample :
    resumeFromShards (testEnv defaultKnobs) [] =
      .error "out-of-bounds vector access in resumeFromShards" ∧
    resumeFromShards (testEnv defaultKnobs) [] ≠ .ok [] := by
  constructor
  · unfold resumeFromShards SIZE_T_MOD
    norm_num
    rfl
  · unfold resumeFromShards SIZE_T_MOD
    norm_num
    intro h
    rw [show (18446744073709551615 : Nat) = 18446744073709551614 + 1 from rfl] at h
    rw [shardLoop] at h
    cases h

/-- Claim C9 (amended): `resumeFromShards` applied to a shard list
containing only the sentinel entry emits no relocations; applied to zero
shards, the unsigned loop bound underflows and the iteration performs an
out-of-bounds vector access instead of emitting nothing. -/

theorem C9_resume_boundaries :
    (∀ (env : ResumeEnv) (s : DDShardInfo), resumeFromShards env [s] = .ok []) ∧
    (∀ env : ResumeEnv, resumeFromShards env [] =
      .error "out-of-bounds vector access in resumeFromShards") := by
  constructor
  · intro env s
    unfold resumeFromShards SIZE_T_MOD
    norm_num
    rw [shardLoop]
  · intro env
    unfold resumeFromShards SIZE_T_MOD
    norm_num
    rw [show (18446744073709551615 : Nat) = 18446744073709551614 + 1 from rfl]
    rw [shardLoop]
    rfl

/-- Claim C10: whenever `ddSnapCreate` successfully moves the
`DDEnabledState` into snapshot mode, every terminating path — snapshot
success, dbInfo change, timeout, a non-cancellation error, or cancellation
— ends by re-enabling data distribution via `trySetEnabled` with the same
uid, and that transition succeeds, leaving the state enabled. -/

theorem C10_snap_reenable (s0 : DDEnabledMode) (uid : UID) (outcome : SnapCreateOutcome)
    (h : (trySetSnapshot s0 uid).1 = true) :
    (ddSnapCreate s0 uid outcome).1.getLast? = some (.reenable true) ∧
    (ddSnapCreate s0 uid outcome).2.1 = .enabled := by
  have hs0 : s0 = .enabled := by
    cases s0 with
    | enabled => rfl
    | snapshotPreparing o => simp [trySetSnapshot] at h
    | blobRestorePreparing o => simp [trySetSnapshot] at h
  subst hs0
  have hre : trySetEnabled (.snapshotPreparing uid) uid = (true, .enabled) := by
    simp [trySetEnabled]
  cases outcome with
  | dbInfoChanged => simp [ddSnapCreate, trySetSnapshot, hre]
  | coreSuccess => simp [ddSnapCreate, trySetSnapshot, hre]
  | timedOut => simp [ddSnapCreate, trySetSnapshot, hre]
  | coreError e =>
    by_cases he : e = DDError.operationCancelled
    · subst he
      simp [ddSnapCreate, trySetSnapshot, hre]
    · simp [ddSnapCreate, trySetSnapshot, hre, he]
  | cancelled => simp [ddSnapCreate, trySetSnapshot, hre]

theorem C10_snap_reenable_witness :
    (trySetSnapshot .enabled ((3, 3) : UID)).1 = true ∧
    (ddSnapCreate .enabled (3, 3) .coreSuccess).1.getLast? = some (.reenable true) ∧
    (ddSnapCreate .enabled (3, 3) .coreSuccess).2.1 = .enabled :=
  ⟨rfl, (C10_snap_reenable .enabled (3, 3) .coreSuccess rfl).1,
    (C10_snap_reenable .enabled (3, 3) .coreSuccess rfl).2⟩


end DDModel
